import Mathlib

/-!
Verification of the PS/2 controller/keyboard/mouse driver (ps2-rs).

The driver talks to two hardware IO registers: the data register (port 0x60)
and the command/status register (port 0x64).  We embed the driver shallowly:

* the hardware is modelled by a finite stream of pending bytes for each of the
  two readable registers, carried in the run state and consumed in order by
  reads, plus a default byte per register (`Hw`) that the register keeps
  returning once its stream is exhausted (a hardware register always returns
  something when read);
* the run state `St` also counts how many status reads and data reads have
  happened and logs every byte written, in order, together with the register
  it was written to;
* every driver operation becomes a function `St → Except ε α × St`
  (the monad `M ε`), translated clause by clause from the Rust source.

Bytes are modelled as `Nat`; the stream elements and defaults stand for the
`u8` values the ports return, so the environments used below only carry
values below 256 (quantified positions use `Fin 256` or pass the value
through untouched).
-/

set_option maxRecDepth 100000

namespace PS2

/-- The two IO registers of the 8042 controller (`DATA_REGISTER = 0x60`,
`COMMAND_REGISTER = 0x64` in `controller.rs`). -/
inductive Reg
  | command
  | data
deriving DecidableEq, Repr

/-- The static part of the hardware model: the byte each readable register
returns once its pending stream (in `St`) is exhausted. -/
structure Hw where
  statusDefault : Nat
  dataDefault : Nat
deriving DecidableEq, Repr

/-- Run state: pending bytes of the status register and of the data register,
counters of status/data reads performed so far, and the log of all register
writes in program order. -/
structure St where
  statusIn : List Nat
  dataIn : List Nat
  sIdx : Nat
  dIdx : Nat
  writes : List (Reg × Nat)
deriving DecidableEq, Repr

/-- Initial run state with the given pending streams: nothing read, nothing
written. -/
def start (statusIn dataIn : List Nat) : St := ⟨statusIn, dataIn, 0, 0, []⟩

/-- The driver monad: state passing over `St` with failure in `ε`
(Rust's `Result<T, E>` together with the port side effects). -/
def M (ε α : Type) : Type := St → Except ε α × St

def M.pure (a : α) : M ε α := fun s => (.ok a, s)

def M.bind (x : M ε α) (f : α → M ε β) : M ε β := fun s =>
  match x s with
  | (.ok a, s') => f a s'
  | (.error e, s') => (.error e, s')

instance : Monad (M ε) where
  pure := M.pure
  bind := M.bind

/-- Early return with an error (Rust `return Err(e)`). -/
def M.throw (e : ε) : M ε α := fun s => (.error e, s)

/-- Lift a pure `Except` result into the monad. -/
def M.liftExcept (x : Except ε α) : M ε α := fun s => (x, s)

instance instDecidableEqExcept [DecidableEq ε] [DecidableEq α] :
    DecidableEq (Except ε α) := fun x y =>
  match x, y with
  | .ok a, .ok b =>
    if h : a = b then .isTrue (by rw [h])
    else .isFalse (fun hh => h (Except.ok.inj hh))
  | .ok _, .error _ => .isFalse (fun hh => Except.noConfusion hh)
  | .error _, .ok _ => .isFalse (fun hh => Except.noConfusion hh)
  | .error e, .error f =>
    if h : e = f then .isTrue (by rw [h])
    else .isFalse (fun hh => h (Except.error.inj hh))

/-- Error conversion on failure (Rust's `?` applying a `From` impl). -/
def M.mapErr (x : M ε α) (f : ε → ε') : M ε' α := fun s =>
  match x s with
  | (.ok a, s') => (.ok a, s')
  | (.error e, s') => (.error (f e), s')

/-- Read the command/status register (one bus cycle, yields a `u8`): consume
the next pending status byte, or the default once the stream is empty. -/
def readStatusReg (hw : Hw) : M ε Nat := fun s =>
  match s.statusIn with
  | [] => (.ok hw.statusDefault, { s with sIdx := s.sIdx + 1 })
  | v :: rest => (.ok v, { s with statusIn := rest, sIdx := s.sIdx + 1 })

/-- Read the data register (one bus cycle, yields a `u8`): consume the next
pending data byte, or the default once the stream is empty. -/
def readDataReg (hw : Hw) : M ε Nat := fun s =>
  match s.dataIn with
  | [] => (.ok hw.dataDefault, { s with dIdx := s.dIdx + 1 })
  | v :: rest => (.ok v, { s with dataIn := rest, dIdx := s.dIdx + 1 })

/-- Write a byte to a register: appended to the write log. -/
def writeReg (r : Reg) (v : Nat) : M ε Unit := fun s =>
  (.ok (), { s with writes := s.writes ++ [(r, v)] })

/-! ### Bit flags (`flags.rs`) -/

/-- `ControllerStatus::OUTPUT_FULL` — data available to read at port 0x60. -/
def ControllerStatus.OUTPUT_FULL : Nat := 0b00000001

/-- `ControllerStatus::INPUT_FULL` — data has been written to port 0x60. -/
def ControllerStatus.INPUT_FULL : Nat := 0b00000010

/-- `bitflags` `contains`: all bits of `flag` are set in `bits`. -/
def containsFlag (bits flag : Nat) : Bool := decide (bits &&& flag = flag)

/-- `MouseMovement::X_SIGN_BIT` (bit 4 of the movement flags byte). -/
def MouseMovement.X_SIGN_BIT : Nat := 0b00010000

/-- `MouseMovement::Y_SIGN_BIT` (bit 5 of the movement flags byte). -/
def MouseMovement.Y_SIGN_BIT : Nat := 0b00100000

/-- The union of all bits declared in `bitflags! MouseMovement` (bit 3 is not
declared); `from_bits_truncate` masks with this value. -/
def MouseMovement.allBits : Nat := 0b11110111

/-! ### Errors (`error.rs`)

`error.rs` in the snapshot does not list an `InvalidSampleRate` variant, but
`mouse.rs` constructs `MouseError::InvalidSampleRate(..)` in two places, so
the variant is part of the crate's mouse error type and is included here.
The typematic parameter variants carry an `f64` in the source; the values the
driver would store there are exact small decimals, modelled as `ℚ`. -/

inductive ControllerError
  | WouldBlock
  | Timeout
  | TestFailed (response : Nat)
deriving DecidableEq, Repr

inductive KeyboardError
  | BufferOverrun
  | SelfTestFailed
  | Resend
  | KeyDetectionError
  | InvalidResponse (b : Nat)
  | InvalidTypematicFrequency (q : ℚ)
  | InvalidTypematicDelay (d : Nat)
  | ControllerError (e : ControllerError)
deriving DecidableEq, Repr

inductive MouseError
  | SelfTestFailed
  | Resend
  | InvalidResponse (b : Nat)
  | InvalidResolution (b : Nat)
  | InvalidSampleRate (b : Nat)
  | ControllerError (e : ControllerError)
deriving DecidableEq, Repr

/-! ### Response constants (`lib.rs`, `keyboard.rs`) -/

def COMMAND_ACKNOWLEDGED : Nat := 0xfa
def SELF_TEST_PASSED : Nat := 0xaa
def SELF_TEST_FAILED : Nat := 0xfc
def RESEND : Nat := 0xfe
def BUFFER_OVERRUN : Nat := 0x00
def ECHO : Nat := 0xee
def KEY_DETECTION_ERROR : Nat := 0xff

/-! ### Controller (`controller.rs`) -/

/-- The controller handle; `timeout` is the number of poll iterations
(`with_timeout`; `new` uses `DEFAULT_TIMEOUT = 10_000`). -/
structure Controller where
  timeout : Nat

def DEFAULT_TIMEOUT : Nat := 10000

/-- `#[repr(u8)] enum Command` of `controller.rs`. -/
inductive Command
  | ReadInternalRam
  | WriteInternalRam
  | DisableMouse
  | EnableMouse
  | TestMouse
  | TestController
  | TestKeyboard
  | DiagnosticDump
  | DisableKeyboard
  | EnableKeyboard
  | ReadControllerInput
  | WriteLowInputNibbleToStatus
  | WriteHighInputNibbleToStatus
  | ReadControllerOutput
  | WriteControllerOutput
  | WriteKeyboardBuffer
  | WriteMouseBuffer
  | WriteMouse
  | ReadTestPort
  | PulseOutput
deriving DecidableEq, Repr

/-- The `u8` discriminants of `Command` (used by `command as u8`). -/
def Command.toByte : Command → Nat
  | .ReadInternalRam => 0x20
  | .WriteInternalRam => 0x60
  | .DisableMouse => 0xa7
  | .EnableMouse => 0xa8
  | .TestMouse => 0xa9
  | .TestController => 0xaa
  | .TestKeyboard => 0xab
  | .DiagnosticDump => 0xac
  | .DisableKeyboard => 0xad
  | .EnableKeyboard => 0xae
  | .ReadControllerInput => 0xc0
  | .WriteLowInputNibbleToStatus => 0xc1
  | .WriteHighInputNibbleToStatus => 0xc2
  | .ReadControllerOutput => 0xd0
  | .WriteControllerOutput => 0xd1
  | .WriteKeyboardBuffer => 0xd2
  | .WriteMouseBuffer => 0xd3
  | .WriteMouse => 0xd4
  | .ReadTestPort => 0xe0
  | .PulseOutput => 0xf0

/-- One Rust `while cycles < timeout` polling loop: at each iteration read the
status register once and stop successfully when `check` holds; after `fuel`
reads without success, fail with `Timeout`. -/
def waitLoop (hw : Hw) (check : Nat → Bool) : Nat → M ControllerError Unit
  | 0 => M.throw .Timeout
  | fuel + 1 => do
    let st ← readStatusReg hw
    if check st then M.pure () else waitLoop hw check fuel

/-- `Controller::wait_for_read`: poll until `OUTPUT_FULL` is set. -/
def Controller.wait_for_read (c : Controller) (hw : Hw) : M ControllerError Unit :=
  waitLoop hw (fun st => containsFlag st ControllerStatus.OUTPUT_FULL) c.timeout

/-- `Controller::wait_for_write`: poll until `INPUT_FULL` is clear. -/
def Controller.wait_for_write (c : Controller) (hw : Hw) : M ControllerError Unit :=
  waitLoop hw (fun st => ! containsFlag st ControllerStatus.INPUT_FULL) c.timeout

/-- `Controller::write_command`: wait for write readiness, then write the
fixed opcode to the command register. -/
def Controller.write_command (c : Controller) (hw : Hw) (command : Command) :
    M ControllerError Unit := do
  c.wait_for_write hw
  writeReg .command command.toByte

/-- `Controller::read_data`: wait for read readiness, then read the data
register. -/
def Controller.read_data (c : Controller) (hw : Hw) : M ControllerError Nat := do
  c.wait_for_read hw
  readDataReg hw

/-- `Controller::write_data`: wait for write readiness, then write the byte to
the data register. -/
def Controller.write_data (c : Controller) (hw : Hw) (data : Nat) :
    M ControllerError Unit := do
  c.wait_for_write hw
  writeReg .data data

/-- `Controller::read_internal_ram`: the 5-bit address is OR'd into the
`ReadInternalRam` base opcode and written directly to the command register
(bypassing `write_command`), then one data byte is read. -/
def Controller.read_internal_ram (c : Controller) (hw : Hw) (byte_number : Nat) :
    M ControllerError Nat := do
  let command := Command.ReadInternalRam.toByte ||| (byte_number &&& 0x1f)
  c.wait_for_write hw
  writeReg .command command
  c.read_data hw

/-- `Controller::write_internal_ram`: the 5-bit address is OR'd into the
`WriteInternalRam` base opcode and written directly to the command register,
then the payload byte is written via `write_data`. -/
def Controller.write_internal_ram (c : Controller) (hw : Hw) (byte_number data : Nat) :
    M ControllerError Unit := do
  let command := Command.WriteInternalRam.toByte ||| (byte_number &&& 0x1f)
  c.wait_for_write hw
  writeReg .command command
  c.write_data hw data

/-- `Controller::write_mouse`: route a byte to the mouse by sending the
`WriteMouse` opcode first, then the byte through the data register. -/
def Controller.write_mouse (c : Controller) (hw : Hw) (data : Nat) :
    M ControllerError Unit := do
  c.write_command hw .WriteMouse
  c.write_data hw data

/-- `Controller::pulse_output_low_nibble`: OR the caller's byte into the
`PulseOutput` opcode (whose high nibble is all ones) and write it directly to
the command register. -/
def Controller.pulse_output_low_nibble (c : Controller) (hw : Hw) (data : Nat) :
    M ControllerError Unit := do
  let command := Command.PulseOutput.toByte ||| data
  c.wait_for_write hw
  writeReg .command command

/-- Modelled from the spec: the non-blocking read mode of the controller.
`ControllerError::WouldBlock` is declared in `src/error.rs` but no producer of
it appears in `src/controller.rs`; the spec requires that "when enabled, a
read that finds no data ready fails immediately with a distinct would-block
error instead of polling".  With `nonBlocking = false` this is exactly the
source's `Controller::read_data`. -/
def Controller.read_data_modelled (c : Controller) (nonBlocking : Bool) (hw : Hw) :
    M ControllerError Nat :=
  if nonBlocking then do
    let st ← readStatusReg hw
    if containsFlag st ControllerStatus.OUTPUT_FULL then readDataReg hw
    else M.throw .WouldBlock
  else c.read_data hw

/-! ### Keyboard (`keyboard.rs`, `keyboard/keyboard_type.rs`)

A `Keyboard` is a borrow of the controller; its operations are modelled as
functions taking the `Controller` and the hardware oracle. -/

/-- `#[repr(u8)] enum Command` of `keyboard.rs`. -/
inductive KCommand
  | SetLeds
  | Echo
  | GetOrSetScancode
  | IdentifyKeyboard
  | SetTypematicRateAndDelay
  | EnableScanning
  | DisableScanning
  | SetDefaults
  | SetAllKeysTypematic
  | SetAllKeysMakeBreak
  | SetAllKeysMakeOnly
  | SetAllKeysTypematicAndMakeBreak
  | SetKeyTypematic
  | SetKeyMakeBreak
  | SetKeyMakeOnly
  | ResendLastByte
  | ResetAndSelfTest
deriving DecidableEq, Repr

/-- The `u8` discriminants of the keyboard `Command` enum. -/
def KCommand.toByte : KCommand → Nat
  | .SetLeds => 0xed
  | .Echo => 0xee
  | .GetOrSetScancode => 0xf0
  | .IdentifyKeyboard => 0xf2
  | .SetTypematicRateAndDelay => 0xf3
  | .EnableScanning => 0xf4
  | .DisableScanning => 0xf5
  | .SetDefaults => 0xf6
  | .SetAllKeysTypematic => 0xf7
  | .SetAllKeysMakeBreak => 0xf8
  | .SetAllKeysMakeOnly => 0xf9
  | .SetAllKeysTypematicAndMakeBreak => 0xfa
  | .SetKeyTypematic => 0xfb
  | .SetKeyMakeBreak => 0xfc
  | .SetKeyMakeOnly => 0xfd
  | .ResendLastByte => 0xfe
  | .ResetAndSelfTest => 0xff

/-- `enum KeyboardType` (`keyboard/keyboard_type.rs`). -/
inductive KeyboardType
  | XT
  | ATWithTranslation
  | MF2
  | MF2WithTranslation
  | ThinkPad
  | ThinkPadWithTranslation
  | Unknown122Key
  | IBM1390876
  | NetworkComputingDevicesN97
  | NetworkComputingDevicesSunLayout
  | OldJapaneseG
  | OldJapaneseP
  | OldJapaneseA
  | Unknown (first second : Nat)
deriving DecidableEq, Repr

/-- `impl From<(u8, u8)> for KeyboardType`: the fixed identification table,
with the catch-all `Unknown` carrying both raw bytes. -/
def keyboardTypeFromPair (first second : Nat) : KeyboardType :=
  if first = 0xab ∧ second = 0x83 then .MF2
  else if (first = 0xab ∧ second = 0x41) ∨ (first = 0xab ∧ second = 0xc1) then .MF2WithTranslation
  else if first = 0xab ∧ second = 0x84 then .ThinkPad
  else if first = 0xab ∧ second = 0x54 then .ThinkPadWithTranslation
  else if first = 0xab ∧ second = 0x86 then .Unknown122Key
  else if first = 0xbf ∧ second = 0xbf then .IBM1390876
  else if first = 0xab ∧ second = 0x85 then .NetworkComputingDevicesN97
  else if first = 0xac ∧ second = 0xa1 then .NetworkComputingDevicesSunLayout
  else if first = 0xab ∧ second = 0x90 then .OldJapaneseG
  else if first = 0xab ∧ second = 0x91 then .OldJapaneseP
  else if first = 0xab ∧ second = 0x92 then .OldJapaneseA
  else .Unknown first second

/-- The pairs matched by a non-catch-all arm of the identification table. -/
def keyboardIdTable : List (Nat × Nat) :=
  [(0xab, 0x83), (0xab, 0x41), (0xab, 0xc1), (0xab, 0x84), (0xab, 0x54),
   (0xab, 0x86), (0xbf, 0xbf), (0xab, 0x85), (0xac, 0xa1), (0xab, 0x90),
   (0xab, 0x91), (0xab, 0x92)]

/-- `Keyboard::check_response`: the keyboard acknowledgment handshake.  Note
`BUFFER_OVERRUN` (0x00) and `KEY_DETECTION_ERROR` (0xff) both map to
`KeyboardError::KeyDetectionError`. -/
def Keyboard.check_response (c : Controller) (hw : Hw) : M KeyboardError Unit := do
  let b ← (c.read_data hw).mapErr .ControllerError
  if b = BUFFER_OVERRUN then M.throw .KeyDetectionError
  else if b = COMMAND_ACKNOWLEDGED then M.pure ()
  else if b = RESEND then M.throw .Resend
  else if b = KEY_DETECTION_ERROR then M.throw .KeyDetectionError
  else M.throw (.InvalidResponse b)

/-- `Keyboard::write_command`: send the opcode through the data register, run
the acknowledgment cycle, then optionally send one data byte through the same
cycle. -/
def Keyboard.write_command (c : Controller) (hw : Hw) (command : KCommand)
    (data : Option Nat) : M KeyboardError Unit := do
  (c.write_data hw command.toByte).mapErr .ControllerError
  Keyboard.check_response c hw
  match data with
  | some d => do
    (c.write_data hw d).mapErr .ControllerError
    Keyboard.check_response c hw
  | none => M.pure ()

/-- `Keyboard::get_keyboard_type`: a `Resend` during the identify handshake
means an XT keyboard; a `Timeout` reading the first identification byte means
an AT keyboard with translation; otherwise two bytes are read and classified
through the identification table. -/
def Keyboard.get_keyboard_type (c : Controller) (hw : Hw) :
    M KeyboardError KeyboardType := fun s =>
  match Keyboard.write_command c hw .IdentifyKeyboard none s with
  | (.ok (), s1) =>
    match c.read_data hw s1 with
    | (.ok first_byte, s2) =>
      match c.read_data hw s2 with
      | (.ok second_byte, s3) => (.ok (keyboardTypeFromPair first_byte second_byte), s3)
      | (.error e, s3) => (.error (.ControllerError e), s3)
    | (.error .Timeout, s2) => (.ok .ATWithTranslation, s2)
    | (.error e, s2) => (.error (.ControllerError e), s2)
  | (.error .Resend, s1) => (.ok .XT, s1)
  | (.error e, s1) => (.error e, s1)

/-- `Keyboard::set_typematic_rate_and_delay`: the single argument is the
already-encoded typematic configuration byte; its most significant bit is
masked off (`typematic_config & 0b01111111`) and the result is sent as the
data byte of the `SetTypematicRateAndDelay` command. -/
def Keyboard.set_typematic_rate_and_delay (c : Controller) (hw : Hw)
    (typematic_config : Nat) : M KeyboardError Unit :=
  Keyboard.write_command c hw .SetTypematicRateAndDelay
    (some (typematic_config &&& 0b01111111))

/-! ### Mouse (`mouse.rs`, `mouse/mouse_type.rs`) -/

/-- `const VALID_RESOLUTIONS: [u8; 4]` of `mouse.rs`. -/
def VALID_RESOLUTIONS : List Nat := [0, 1, 2, 3]

/-- `const VALID_SAMPLE_RATES: [u8; 7]` of `mouse.rs`. -/
def VALID_SAMPLE_RATES : List Nat := [10, 20, 40, 60, 80, 100, 200]

/-- `#[repr(u8)] enum Command` of `mouse.rs`. -/
inductive MCommand
  | SetScaling1To1
  | SetScaling2To1
  | SetResolution
  | StatusRequest
  | SetStreamMode
  | ReadData
  | ResetWrapMode
  | SetWrapMode
  | SetRemoteMode
  | GetDeviceID
  | SetSampleRate
  | EnableDataReporting
  | DisableDataReporting
  | SetDefaults
  | ResendLastPacket
  | ResetAndSelfTest
deriving DecidableEq, Repr

/-- The `u8` discriminants of the mouse `Command` enum. -/
def MCommand.toByte : MCommand → Nat
  | .SetScaling1To1 => 0xe6
  | .SetScaling2To1 => 0xe7
  | .SetResolution => 0xe8
  | .StatusRequest => 0xe9
  | .SetStreamMode => 0xea
  | .ReadData => 0xeb
  | .ResetWrapMode => 0xec
  | .SetWrapMode => 0xee
  | .SetRemoteMode => 0xf0
  | .GetDeviceID => 0xf2
  | .SetSampleRate => 0xf3
  | .EnableDataReporting => 0xf4
  | .DisableDataReporting => 0xf5
  | .SetDefaults => 0xf6
  | .ResendLastPacket => 0xfe
  | .ResetAndSelfTest => 0xff

/-- `Mouse::check_response`: only `COMMAND_ACKNOWLEDGED` succeeds and only
`RESEND` is special-cased; every other byte (including 0x00 and 0xff) is an
`InvalidResponse` carrying the raw byte. -/
def Mouse.check_response (c : Controller) (hw : Hw) : M MouseError Unit := do
  let b ← (c.read_data hw).mapErr .ControllerError
  if b = COMMAND_ACKNOWLEDGED then M.pure ()
  else if b = RESEND then M.throw .Resend
  else M.throw (.InvalidResponse b)

/-- `Mouse::write_command`: route the opcode via `Controller::write_mouse`,
run the acknowledgment cycle, then optionally send one data byte through the
plain data register followed by another acknowledgment cycle. -/
def Mouse.write_command (c : Controller) (hw : Hw) (command : MCommand)
    (data : Option Nat) : M MouseError Unit := do
  (c.write_mouse hw command.toByte).mapErr .ControllerError
  Mouse.check_response c hw
  match data with
  | some d => do
    (c.write_data hw d).mapErr .ControllerError
    Mouse.check_response c hw
  | none => M.pure ()

/-- `Mouse::set_resolution`: values outside `VALID_RESOLUTIONS` are rejected
(the source writes this as an early `return Err(..)` on `!contains`); a valid
value is replaced by its position in the table (`position(..).unwrap()`,
guarded by the `contains` check and modelled by `findIdx`) before
transmission. -/
def Mouse.set_resolution (c : Controller) (hw : Hw) (resolution : Nat) :
    M MouseError Unit :=
  if VALID_RESOLUTIONS.contains resolution then
    let resolution_index := VALID_RESOLUTIONS.findIdx (· = resolution)
    Mouse.write_command c hw .SetResolution (some resolution_index)
  else M.throw (.InvalidResolution resolution)

/-- `Mouse::set_sample_rate`: values outside `VALID_SAMPLE_RATES` are
rejected with the raw value; a valid value is transmitted unchanged. -/
def Mouse.set_sample_rate (c : Controller) (hw : Hw) (sample_rate : Nat) :
    M MouseError Unit :=
  if VALID_SAMPLE_RATES.contains sample_rate then
    Mouse.write_command c hw .SetSampleRate (some sample_rate)
  else M.throw (.InvalidSampleRate sample_rate)

/-- Reinterpretation of a `u16` value as an `i16` (Rust `as i16`). -/
def asI16 (u : Nat) : Int :=
  if u % 65536 < 32768 then ((u % 65536 : Nat) : Int)
  else ((u % 65536 : Nat) : Int) - 65536

/-- The pure decode of a mouse movement packet, extracted from
`Mouse::read_data_packet`: truncate the flags byte to the declared movement
bits, sign-extend each raw delta byte into the top half of a 16-bit value
when the corresponding sign bit is set, and reinterpret as signed. -/
def decodePacket (flagsByte rawX rawY : Nat) : Nat × Int × Int :=
  let movement_flags := flagsByte &&& MouseMovement.allBits
  let x_movement :=
    if containsFlag movement_flags MouseMovement.X_SIGN_BIT
    then rawX ||| 0xff00 else rawX
  let y_movement :=
    if containsFlag movement_flags MouseMovement.Y_SIGN_BIT
    then rawY ||| 0xff00 else rawY
  (movement_flags, asI16 x_movement, asI16 y_movement)

/-- `Mouse::read_data_packet`: read three bytes (flags, raw X, raw Y) from
the data buffer and decode them; no command is sent to the mouse. -/
def Mouse.read_data_packet (c : Controller) (hw : Hw) :
    M MouseError (Nat × Int × Int) := do
  let flagsByte ← (c.read_data hw).mapErr .ControllerError
  let rawX ← (c.read_data hw).mapErr .ControllerError
  let rawY ← (c.read_data hw).mapErr .ControllerError
  M.pure (decodePacket flagsByte rawX rawY)

/-- The classification of the self-test response byte inside
`Mouse::reset_and_self_test` (the `match` that computes `result`). -/
def Mouse.classify_self_test (b : Nat) : Except MouseError Unit :=
  if b = SELF_TEST_PASSED then .ok ()
  else if b = SELF_TEST_FAILED then .error .SelfTestFailed
  else if b = RESEND then .error .Resend
  else .error (.InvalidResponse b)

/-- `Mouse::reset_and_self_test`: after the acknowledgment cycle of the reset
command, read the self-test byte and classify it, then unconditionally read
one more byte (the trailing device ID) before returning the classification. -/
def Mouse.reset_and_self_test (c : Controller) (hw : Hw) : M MouseError Unit := do
  Mouse.write_command c hw .ResetAndSelfTest none
  let b ← (c.read_data hw).mapErr .ControllerError
  let result := Mouse.classify_self_test b
  let _device_id ← (c.read_data hw).mapErr .ControllerError
  M.liftExcept result

/-! ### Concrete environments used by the theorems

The claims below are settled on a controller constructed with
`with_timeout 1`: in the environments used, the polled register is ready at
the first poll wherever readiness is needed, so the timeout value does not
influence the traces; theorems about the timeout itself quantify over it. -/

/-- Hardware that is never ready: every status read yields `0`. -/
def noDataHw : Hw := ⟨0, 0⟩

/-- Hardware that is always ready (status `0b01`: output full, input empty)
and answers every data read with the acknowledge byte `0xfa`. -/
def ackHw : Hw := ⟨1, COMMAND_ACKNOWLEDGED⟩

/-- Hardware for the AT-identification scenario: the status register is ready
only while the pending status stream lasts, and data reads acknowledge. -/
def atHw : Hw := ⟨0, COMMAND_ACKNOWLEDGED⟩

/-- The controller instance used for the concrete traces (`with_timeout 1`). -/
def ctl : Controller := ⟨1⟩

/-- Whether a keyboard result is one of the typematic parameter errors
(`InvalidTypematicFrequency` or `InvalidTypematicDelay`). -/
def isTypematicParamError : Except KeyboardError Unit → Bool
  | .error (.InvalidTypematicFrequency _) => true
  | .error (.InvalidTypematicDelay _) => true
  | _ => false

/-! ### Helper lemmas -/

/-- A polling loop whose pending status stream is empty and whose default
status byte fails the readiness check performs exactly `fuel` status reads
and then times out, leaving everything else unchanged. -/
theorem waitLoop_exhausts_timeout (hw : Hw) (check : Nat → Bool)
    (h : check hw.statusDefault = false) :
    ∀ (fuel : Nat) (s : St), s.statusIn = [] →
      waitLoop hw check fuel s
        = (.error .Timeout, { s with sIdx := s.sIdx + fuel }) := by
  intro fuel
  induction fuel with
  | zero => intro s _; simp [waitLoop, M.throw]
  | succ n ih =>
    intro s hs
    have hstep : waitLoop hw check (n + 1) s
        = waitLoop hw check n { s with sIdx := s.sIdx + 1 } := by
      simp [waitLoop, Bind.bind, M.bind, readStatusReg, hs, h]
    have hs' : (St.mk s.statusIn s.dataIn (s.sIdx + 1) s.dIdx s.writes).statusIn = [] := hs
    rw [hstep, ih _ hs']
    have harith : s.sIdx + 1 + n = s.sIdx + (n + 1) := by omega
    simp [harith]

/-- `bitflags` `contains` on a single-bit flag tests exactly that bit of the
flags value. -/
theorem containsFlag_two_pow (bits i : Nat) :
    containsFlag bits (2 ^ i) = bits.testBit i := by
  unfold containsFlag
  rw [Nat.and_two_pow]
  cases h : bits.testBit i
  · simp only [Bool.toNat_false, Nat.zero_mul, decide_eq_false_iff_not]
    have hpos : 0 < 2 ^ i := Nat.pos_pow_of_pos i (by omega)
    omega
  · simp

/-- The X sign bit (`0x10`) survives the `from_bits_truncate` mask (`0xf7`)
and `contains` reads it as bit 4 of the raw flags byte. -/
theorem x_sign_bit_eq_testBit (f : Nat) :
    containsFlag (f &&& 0xf7) 0x10 = f.testBit 4 := by
  have hflag : (0x10 : Nat) = 2 ^ 4 := by norm_num
  rw [hflag, containsFlag_two_pow, Nat.testBit_and]
  have hmask : Nat.testBit 0xf7 4 = true := by decide
  rw [hmask, Bool.and_true]

/-- The Y sign bit (`0x20`) survives the `from_bits_truncate` mask (`0xf7`)
and `contains` reads it as bit 5 of the raw flags byte. -/
theorem y_sign_bit_eq_testBit (f : Nat) :
    containsFlag (f &&& 0xf7) 0x20 = f.testBit 5 := by
  have hflag : (0x20 : Nat) = 2 ^ 5 := by norm_num
  rw [hflag, containsFlag_two_pow, Nat.testBit_and]
  have hmask : Nat.testBit 0xf7 5 = true := by decide
  rw [hmask, Bool.and_true]

/-! ### Claim theorems -/

/-- Claim C1, counterexample: the source's `set_typematic_rate_and_delay`
does not take a rate/delay pair and performs no validation at all.  It
accepts the raw configuration byte `0xff`, transmits (opcode `0xf3`, then
`0xff` with the top bit masked to `0x7f`), and there is no input on which it
returns one of the typematic parameter errors. -/
theorem set_typematic_no_validation_cex :
    Keyboard.set_typematic_rate_and_delay ctl ackHw 0xff (start [] [])
        = (.ok (), ⟨[], [], 4, 2, [(.data, 0xf3), (.data, 0x7f)]⟩) ∧
    ¬ ∃ cfg : Nat,
        isTypematicParamError
          (Keyboard.set_typematic_rate_and_delay ctl ackHw cfg (start [] [])).1
          = true := by
  refine ⟨rfl, ?_⟩
  rintro ⟨cfg, h⟩
  have hok : (Keyboard.set_typematic_rate_and_delay ctl ackHw cfg (start [] [])).1
      = Except.ok () := rfl
  rw [hok] at h
  exact Bool.noConfusion h

/-- Claim C1, amended: `set_typematic_rate_and_delay` takes the single
already-encoded typematic configuration byte, performs no validation, and the
single data byte sent after the `0xf3` opcode is the configuration byte with
its most significant bit masked off (`config & 0b01111111`). -/
theorem set_typematic_sends_masked_config :
    ∀ cfg : Nat,
      Keyboard.set_typematic_rate_and_delay ctl ackHw cfg (start [] [])
        = (.ok (), ⟨[], [], 4, 2, [(.data, 0xf3), (.data, cfg &&& 0x7f)]⟩) :=
  fun _ => rfl

/-- Claim C2, counterexample: resolution `8` — accepted per the claim — is
rejected by the source with `InvalidResolution 8` before any transmission,
while resolution `0` — rejected per the claim — is accepted and transmitted
verbatim as the data byte. -/
theorem set_resolution_accepted_set_cex :
    Mouse.set_resolution ctl ackHw 8 (start [] [])
        = (.error (.InvalidResolution 8), start [] []) ∧
    Mouse.set_resolution ctl ackHw 0 (start [] [])
        = (.ok (), ⟨[], [], 5, 2, [(.command, 0xd4), (.data, 0xe8), (.data, 0)]⟩) :=
  ⟨rfl, rfl⟩

/-- Claim C2, amended: the accepted resolution values are exactly
`{0, 1, 2, 3}`; an accepted value equals its own index in the table
`VALID_RESOLUTIONS = [0, 1, 2, 3]` and is transmitted unchanged as the data
byte of the `SetResolution` command; every other byte value is rejected with
`InvalidResolution` carrying the raw input, with nothing transmitted. -/
theorem set_resolution_table :
    ∀ r : Fin 256,
      Mouse.set_resolution ctl ackHw r.val (start [] [])
        = if r.val < 4
          then (.ok (), ⟨[], [], 5, 2,
                  [(.command, 0xd4), (.data, 0xe8), (.data, r.val)]⟩)
          else (.error (.InvalidResolution r.val), start [] []) := by
  decide

/-- Claim C3: with the spec-modelled non-blocking mode enabled, a read that
finds no data ready fails with `WouldBlock` after exactly one status check,
for every timeout bound; with the mode disabled the modelled read is exactly
the source's `read_data`, which polls the status register exactly `timeout`
times before failing with `Timeout` when no data ever arrives, and succeeds
without exhausting the bound as soon as data is ready. -/
theorem read_modes_blocking_vs_nonblocking :
    (∀ t : Nat, Controller.read_data_modelled ⟨t⟩ true noDataHw (start [] [])
        = (.error .WouldBlock, ⟨[], [], 1, 0, []⟩)) ∧
    (∀ (t : Nat) (hw : Hw), Controller.read_data_modelled ⟨t⟩ false hw
        = Controller.read_data ⟨t⟩ hw) ∧
    (∀ t : Nat, Controller.read_data ⟨t⟩ noDataHw (start [] [])
        = (.error .Timeout, ⟨[], [], t, 0, []⟩)) ∧
    (∀ t d : Nat, Controller.read_data ⟨t + 1⟩ ackHw (start [] [d])
        = (.ok d, ⟨[], [], 1, 1, []⟩)) := by
  refine ⟨fun t => rfl, fun t hw => rfl, fun t => ?_, fun t d => rfl⟩
  have hwl : Controller.wait_for_read ⟨t⟩ noDataHw (start [] [])
      = (.error .Timeout, ⟨[], [], t, 0, []⟩) := by
    have h0 := waitLoop_exhausts_timeout noDataHw
      (fun st => containsFlag st ControllerStatus.OUTPUT_FULL) rfl t (start [] []) rfl
    simpa [start, Controller.wait_for_read] using h0
  show M.bind (Controller.wait_for_read ⟨t⟩ noDataHw) (fun _ => readDataReg noDataHw)
      (start [] []) = (.error .Timeout, ⟨[], [], t, 0, []⟩)
  unfold M.bind
  rw [hwl]

/-- Claim C4: `get_keyboard_type` is a three-branch decision procedure — a
`Resend` answer to the identify handshake yields `XT` with no identification
byte read (one data read total: the handshake byte); a handshake success
followed by a first-byte read timeout yields `ATWithTranslation`; a
handshake success followed by two bytes classifies the pair through the fixed
table, on which `(0xab, 0x83)` is `MF2` and any pair outside the table is
`Unknown` carrying both raw bytes. -/
theorem get_keyboard_type_cases :
    Keyboard.get_keyboard_type ctl ackHw (start [] [0xfe])
        = (.ok .XT, ⟨[], [], 2, 1, [(.data, 0xf2)]⟩) ∧
    Keyboard.get_keyboard_type ctl atHw (start [1, 1] [])
        = (.ok .ATWithTranslation, ⟨[], [], 3, 1, [(.data, 0xf2)]⟩) ∧
    (∀ a b : Nat, Keyboard.get_keyboard_type ctl ackHw (start [] [0xfa, a, b])
        = (.ok (keyboardTypeFromPair a b), ⟨[], [], 4, 3, [(.data, 0xf2)]⟩)) ∧
    keyboardTypeFromPair 0xab 0x83 = .MF2 ∧
    (∀ a b : Nat, (a, b) ∉ keyboardIdTable → keyboardTypeFromPair a b = .Unknown a b) := by
  refine ⟨rfl, rfl, fun a b => rfl, rfl, ?_⟩
  intro a b h
  have h1 : ¬(a = 0xab ∧ b = 0x83) := by rintro ⟨rfl, rfl⟩; exact h (by decide)
  have h2 : ¬((a = 0xab ∧ b = 0x41) ∨ (a = 0xab ∧ b = 0xc1)) := by
    rintro (⟨rfl, rfl⟩ | ⟨rfl, rfl⟩) <;> exact h (by decide)
  have h3 : ¬(a = 0xab ∧ b = 0x84) := by rintro ⟨rfl, rfl⟩; exact h (by decide)
  have h4 : ¬(a = 0xab ∧ b = 0x54) := by rintro ⟨rfl, rfl⟩; exact h (by decide)
  have h5 : ¬(a = 0xab ∧ b = 0x86) := by rintro ⟨rfl, rfl⟩; exact h (by decide)
  have h6 : ¬(a = 0xbf ∧ b = 0xbf) := by rintro ⟨rfl, rfl⟩; exact h (by decide)
  have h7 : ¬(a = 0xab ∧ b = 0x85) := by rintro ⟨rfl, rfl⟩; exact h (by decide)
  have h8 : ¬(a = 0xac ∧ b = 0xa1) := by rintro ⟨rfl, rfl⟩; exact h (by decide)
  have h9 : ¬(a = 0xab ∧ b = 0x90) := by rintro ⟨rfl, rfl⟩; exact h (by decide)
  have h10 : ¬(a = 0xab ∧ b = 0x91) := by rintro ⟨rfl, rfl⟩; exact h (by decide)
  have h11 : ¬(a = 0xab ∧ b = 0x92) := by rintro ⟨rfl, rfl⟩; exact h (by decide)
  simp only [keyboardTypeFromPair, if_neg h1, if_neg h2, if_neg h3, if_neg h4,
    if_neg h5, if_neg h6, if_neg h7, if_neg h8, if_neg h9, if_neg h10, if_neg h11]

/-- Witness for claim C4: a concrete pair outside the identification table
maps to `Unknown` with both raw bytes. -/
theorem get_keyboard_type_cases_witness :
    keyboardTypeFromPair 0x12 0x34 = .Unknown 0x12 0x34 :=
  get_keyboard_type_cases.2.2.2.2 0x12 0x34 (by decide)

/-- Claim C5: a movement packet decodes each delta byte by zero-extending it
to 16 bits, setting the top 8 bits exactly when the corresponding sign bit
(bit 4 for X, bit 5 for Y) is set in the flags byte, and reinterpreting the
16-bit value as signed; in particular flags `0b00010000`, raw X `0xff`,
raw Y `0x01` decode to X = -1 and Y = 1. -/
theorem read_data_packet_sign_extension :
    (∀ f x y : Nat, Mouse.read_data_packet ctl ackHw (start [] [f, x, y])
        = (.ok (decodePacket f x y), ⟨[], [], 3, 3, []⟩)) ∧
    (∀ f x y : Nat, decodePacket f x y
        = (f &&& 0xf7,
           asI16 (if f.testBit 4 then x ||| 0xff00 else x),
           asI16 (if f.testBit 5 then y ||| 0xff00 else y))) ∧
    Mouse.read_data_packet ctl ackHw (start [] [0b00010000, 0xff, 0x01])
        = (.ok (0b00010000, -1, 1), ⟨[], [], 3, 3, []⟩) := by
  refine ⟨fun f x y => rfl, fun f x y => ?_, by decide⟩
  simp only [decodePacket, MouseMovement.allBits, MouseMovement.X_SIGN_BIT,
    MouseMovement.Y_SIGN_BIT, x_sign_bit_eq_testBit, y_sign_bit_eq_testBit]

/-- Claim C6: both internal-RAM operations compute their opcode by masking
the address to 5 bits and OR-ing it into the base opcode (`0x20` for read,
`0x60` for write); the only command-register write carries that combined
opcode and no data-register write carries the address. -/
theorem internal_ram_address_masked :
    (∀ n d : Nat, Controller.read_internal_ram ctl ackHw n (start [] [d])
        = (.ok d, ⟨[], [], 2, 1, [(.command, 0x20 ||| (n &&& 0x1f))]⟩)) ∧
    (∀ n d : Nat, Controller.write_internal_ram ctl ackHw n d (start [] [])
        = (.ok (), ⟨[], [], 2, 0,
            [(.command, 0x60 ||| (n &&& 0x1f)), (.data, d)]⟩)) :=
  ⟨fun _ _ => rfl, fun _ _ => rfl⟩

/-- Claim C7: both mouse setters validate before touching the controller —
for every controller, hardware environment and start state, an out-of-table
resolution or sample rate is rejected with the raw value in the error and the
state (in particular the write log) is completely unchanged. -/
theorem mouse_setters_reject_before_transmission :
    (∀ (c : Controller) (hw : Hw) (r : Nat) (s : St),
        VALID_RESOLUTIONS.contains r = false →
        Mouse.set_resolution c hw r s = (.error (.InvalidResolution r), s)) ∧
    (∀ (c : Controller) (hw : Hw) (v : Nat) (s : St),
        VALID_SAMPLE_RATES.contains v = false →
        Mouse.set_sample_rate c hw v s = (.error (.InvalidSampleRate v), s)) := by
  constructor
  · intro c hw r s h
    have h' : ¬ (VALID_RESOLUTIONS.contains r = true) := fun hc => by
      rw [h] at hc; exact Bool.noConfusion hc
    unfold Mouse.set_resolution
    rw [if_neg h']
    rfl
  · intro c hw v s h
    have h' : ¬ (VALID_SAMPLE_RATES.contains v = true) := fun hc => by
      rw [h] at hc; exact Bool.noConfusion hc
    unfold Mouse.set_sample_rate
    rw [if_neg h']
    rfl

/-- Witness for claim C7: resolution `5` and sample rate `15` are rejected
with the raw value and no register write. -/
theorem mouse_setters_reject_before_transmission_witness :
    Mouse.set_resolution ctl ackHw 5 (start [] [])
        = (.error (.InvalidResolution 5), start [] []) ∧
    Mouse.set_sample_rate ctl ackHw 15 (start [] [])
        = (.error (.InvalidSampleRate 15), start [] []) :=
  ⟨mouse_setters_reject_before_transmission.1 ctl ackHw 5 (start [] []) (by decide),
   mouse_setters_reject_before_transmission.2 ctl ackHw 15 (start [] []) (by decide)⟩

/-- Claim C8: after the acknowledgment cycle of the reset command, the mouse
self-test byte is classified (`0xaa` pass, `0xfc` self-test-failed, `0xfe`
resend, anything else invalid-response with the byte), and exactly one more
data read (the trailing device ID) is performed unconditionally — the final
data-read count is 3 for every self-test byte, success or failure. -/
theorem mouse_reset_reads_id_unconditionally :
    (∀ r : Nat,
      Mouse.reset_and_self_test ctl ackHw (start [] [0xfa, r, 0x00])
        = (Mouse.classify_self_test r,
           ⟨[], [], 5, 3, [(.command, 0xd4), (.data, 0xff)]⟩)) ∧
    (∀ r : Nat,
      Mouse.classify_self_test r
        = if r = 0xaa then .ok ()
          else if r = 0xfc then .error .SelfTestFailed
          else if r = 0xfe then .error .Resend
          else .error (.InvalidResponse r)) :=
  ⟨fun _ => rfl, fun _ => rfl⟩

/-- Claim C9: `pulse_output_low_nibble` writes the single byte
`0xf0 ||| data` to the command register; that byte only depends on the low
nibble of the input (`0xf0 ||| data = 0xf0 ||| (data &&& 0x0f)`) and its
high nibble is all ones for every input byte. -/
theorem pulse_output_high_nibble_all_ones :
    ∀ d : Fin 256,
      Controller.pulse_output_low_nibble ctl ackHw d.val (start [] [])
          = (.ok (), ⟨[], [], 1, 0, [(.command, 0xf0 ||| d.val)]⟩) ∧
      0xf0 ||| d.val = 0xf0 ||| (d.val &&& 0x0f) ∧
      (0xf0 ||| d.val) >>> 4 = 0xf := by
  decide

/-- Claim C10: the mouse handshake accepts `0xfa`, maps `0xfe` to `Resend`,
and maps every other byte — including `0x00` and `0xff` — to
`InvalidResponse` with the raw byte, whereas the keyboard handshake maps both
`0x00` and `0xff` to `KeyDetectionError`. -/
theorem mouse_vs_keyboard_handshake :
    (∀ b : Fin 256,
      (Mouse.check_response ctl ackHw (start [] [b.val])).1
        = (if b.val = 0xfa then .ok ()
           else if b.val = 0xfe then .error MouseError.Resend
           else .error (.InvalidResponse b.val))) ∧
    (Keyboard.check_response ctl ackHw (start [] [0x00])).1
        = .error .KeyDetectionError ∧
    (Keyboard.check_response ctl ackHw (start [] [0xff])).1
        = .error .KeyDetectionError := by
  exact ⟨by decide, rfl, rfl⟩

end PS2
